import Mathlib

/-!
Verification of the light-vst repository (bulb-core, bulb-vst, bulb-app)
against its natural-language specification.

The Rust sources are shallowly embedded as Lean functions:
- machine integers (u8, u16) become Nat with explicit bounds; where overflow
  matters the wrap-around is written as an explicit `% 65536`;
- the Tuya transport collaborator is modelled by Boolean outcome parameters
  (one per transport call), since the core only observes success or failure;
- timestamps are modelled as the sampled seconds value (the source
  string-encodes the same value with to_string before placing it in the
  payload; no property below inspects the decimal encoding);
- the crossbeam bounded channel is modelled by its documented semantics:
  a bounded sender blocks when the buffer is full and never drops the item.
-/

/-! ## Color codec (bulb-core/src/lib.rs) -/

/-- One lowercase hexadecimal digit, as produced by the Rust format
specifier x for a digit value below 16. -/
def hexDigit (n : Nat) : Char :=
  if n < 10 then Char.ofNat (48 + n) else Char.ofNat (87 + n)

/-- Embedding of the Rust format specifier 04x applied to a u16 value:
four lowercase hex digits, zero padded (a u16 never needs more than four). -/
def format_hex4 (n : Nat) : String :=
  String.mk [hexDigit (n / 4096 % 16), hexDigit (n / 256 % 16),
             hexDigit (n / 16 % 16), hexDigit (n % 16)]

/-- bulb-core hsv_to_hex: three u16 values, each rendered with 04x. -/
def hsv_to_hex (h s v : Nat) : String :=
  format_hex4 h ++ format_hex4 s ++ format_hex4 v

/-- The color string built inline by BulbController::set_color for dps key 28:
a flag digit (0 when immediate, 1 otherwise), then hsv_to_hex, then eight
literal zero characters.  The spec calls this function encodeColor. -/
def encode_color (h s v : Nat) (immediate : Bool) : String :=
  (if immediate then "0" else "1") ++ hsv_to_hex h s v ++ "00000000"

/-- Maps MIDI CC value (0-127) to Hue (0-360); bulb-core midi_to_hue.
The source computes (midi_value as u16 * 360) / 127 in u16 arithmetic,
so the product is taken modulo 2^16. -/
def midi_to_hue (midi_value : Nat) : Nat :=
  midi_value * 360 % 65536 / 127

/-- Modelled from the spec: the repository has no hex decoder under src/
(only the encoder hsv_to_hex); section 8 of the spec speaks of decoding the
4-hex-digit encoding of a hue.  Standard value of one lowercase hex digit. -/
def hexVal (c : Char) : Nat :=
  if 97 ≤ c.toNat then c.toNat - 87 else c.toNat - 48

/-- Modelled from the spec: decode a string of lowercase hex digits,
most significant first. -/
def decodeHex (s : String) : Nat :=
  s.data.foldl (fun acc c => 16 * acc + hexVal c) 0

/-! ## Payloads and the device session (bulb-core/src/lib.rs) -/

/-- A value stored in the dps property map (serde_json values in the source;
only booleans and strings occur). -/
inductive DpVal where
  | b (b : Bool)
  | s (s : String)
deriving DecidableEq, Repr

/-- rust_async_tuyapi PayloadStruct as filled in by
BulbController::create_payload.  The timestamp field t holds the sampled
seconds-since-epoch value (string-encoded in the source). -/
structure Payload where
  dev_id : String
  gw_id : Option String
  uid : Option String
  t : Option Nat
  dp_id : Option Nat
  dps : List (String × DpVal)
deriving DecidableEq, Repr

/-- BulbController::create_payload: dev_id and gw_id are the device id,
uid and dp_id are absent, t is the current time sampled at the call. -/
def create_payload (devId : String) (now : Nat) (dps : List (String × DpVal)) : Payload :=
  { dev_id := devId
    gw_id := some devId
    uid := none
    t := some now
    dp_id := none
    dps := dps }

/-- Result of one send_commands call (anyhow Result in the source,
with the failing call recorded). -/
inductive SendResult where
  | ok
  | connectFailed
  | writeFailed
deriving DecidableEq, Repr

/-- Observable trace of one send_commands call: the payloads handed to the
transport set call in order, whether connect was re-invoked, and the result. -/
structure SendOutcome where
  writes : List Payload
  reconnected : Bool
  result : SendResult
deriving DecidableEq, Repr

/-- BulbController::send_commands.  Attempt 1 writes a payload built at clock
sample t1.  On failure it reconnects (propagating a connect error), then
attempt 2 writes a freshly built payload at clock sample t2.  The transport
collaborator is modelled by the Boolean outcomes set1, connectOk, set2 of the
at most three transport calls made. -/
def send_commands (devId : String) (dps : List (String × DpVal))
    (t1 t2 : Nat) (set1 connectOk set2 : Bool) : SendOutcome :=
  let p1 := create_payload devId t1 dps
  if set1 then
    { writes := [p1], reconnected := false, result := .ok }
  else if connectOk then
    let p2 := create_payload devId t2 dps
    if set2 then
      { writes := [p1, p2], reconnected := true, result := .ok }
    else
      { writes := [p1, p2], reconnected := true, result := .writeFailed }
  else
    { writes := [p1], reconnected := true, result := .connectFailed }

/-- The dps map built by BulbController::set_color: key 20 set to true
(power on) and key 28 set to the encoded color string. -/
def set_color_dps (h s v : Nat) (immediate : Bool) : List (String × DpVal) :=
  [("20", DpVal.b true), ("28", DpVal.s (encode_color h s v immediate))]

/-- BulbController::set_color: builds the dps map and forwards to
send_commands. -/
def set_color (devId : String) (h s v : Nat) (immediate : Bool)
    (t1 t2 : Nat) (set1 connectOk set2 : Bool) : SendOutcome :=
  send_commands devId (set_color_dps h s v immediate) t1 t2 set1 connectOk set2

/-! ## The VST plugin side (bulb-vst/src/lib.rs) -/

/-- The command sent over the channel from the audio thread to the bulb
worker thread. -/
inductive BulbCommand where
  | SetHSV (hue saturation brightness : Nat) (immediate : Bool)
deriving DecidableEq, Repr

/-- Outcome of one call to a crossbeam bounded Sender's send method:
either the item is delivered into the buffer, or - when the buffer is
full and the channel is not disconnected - the call blocks the caller.
A blocking bounded send never discards the item and never evicts an
older one. -/
inductive EnqueueOutcome where
  | delivered (q : List BulbCommand)
  | blocked
deriving DecidableEq, Repr

/-- Semantics of crossbeam Sender::send on the channel created with
bounded cap (cap = 100 in BulbVst::default), as invoked from
BulbVst::process: append when there is room, block when full. -/
def crossbeam_send (cap : Nat) (q : List BulbCommand) (c : BulbCommand) : EnqueueOutcome :=
  if q.length < cap then .delivered (q ++ [c]) else .blocked

/-- The mutable state of a BulbVst instance relevant to the bridge:
the three last_* dedup fields and the contents of the command channel.
The channel contents are the commands delivered so far (a blocking
bounded send always delivers eventually, so delivery is modelled as
an append). -/
structure BulbVstState where
  last_hue : Nat
  last_saturation : Nat
  last_brightness : Nat
  queue : List BulbCommand
deriving DecidableEq, Repr

/-- BulbVst::default: the last_* fields start at u16::MAX = 65535 and the
channel starts empty. -/
def BulbVst.default_state : BulbVstState :=
  { last_hue := 65535, last_saturation := 65535, last_brightness := 65535, queue := [] }

/-- BulbVst::process, below the parameter reads: with hue, saturation,
brightness the already-converted u16 values and immediate the flag, the
triple is compared against the last_* fields; when any component differs the
last_* fields are overwritten and a SetHSV command is sent on the channel
(the send result is discarded with ok()); when all three are equal nothing
happens, whatever the immediate flag. -/
def process (st : BulbVstState) (hue saturation brightness : Nat) (immediate : Bool) :
    BulbVstState :=
  if hue ≠ st.last_hue ∨ saturation ≠ st.last_saturation ∨ brightness ≠ st.last_brightness then
    { last_hue := hue
      last_saturation := saturation
      last_brightness := brightness
      queue := st.queue ++ [BulbCommand.SetHSV hue saturation brightness immediate] }
  else
    st

/-- bulb_controller_thread, steady-state loop: every command received from
the channel triggers exactly one set_color call (hence one device-session
send); the worker logs in both the success and the failure arm and then
continues with the next command, touching no dedup state.  outcomes lists
the per-call transport success; the trace pairs each command with the
outcome of its send. -/
def bulb_controller_thread : List BulbCommand → List Bool → List (BulbCommand × Bool)
  | [], _ => []
  | c :: cs, outcomes => (c, outcomes.headD false) :: bulb_controller_thread cs outcomes.tail

/-! ## Helper lemmas -/

/-- Decoding inverts the hex digit encoding for digit values below 16. -/
theorem hexVal_hexDigit : ∀ d < 16, hexVal (hexDigit d) = d := by decide

/-- A 04x-formatted field is always exactly four characters. -/
theorem format_hex4_length (n : Nat) : (format_hex4 n).length = 4 := rfl

/-- Decoding inverts 04x formatting for any value that fits in four hex
digits. -/
theorem decodeHex_format_hex4 (n : Nat) (hn : n < 4096) :
    decodeHex (format_hex4 n) = n := by
  have h1 : n / 4096 % 16 < 16 := Nat.mod_lt _ (by omega)
  have h2 : n / 256 % 16 < 16 := Nat.mod_lt _ (by omega)
  have h3 : n / 16 % 16 < 16 := Nat.mod_lt _ (by omega)
  have h4 : n % 16 < 16 := Nat.mod_lt _ (by omega)
  simp [decodeHex, format_hex4, hexVal_hexDigit _ h1, hexVal_hexDigit _ h2,
    hexVal_hexDigit _ h3, hexVal_hexDigit _ h4]
  omega

/-- The worker loop produces exactly one set_color call per queued command,
whatever the transport outcomes are: a failed send is not fatal. -/
theorem bulb_controller_thread_length (cmds : List BulbCommand) :
    ∀ outcomes, (bulb_controller_thread cmds outcomes).length = cmds.length := by
  induction cmds with
  | nil => intro outcomes; rfl
  | cons c cs ih => intro outcomes; simp [bulb_controller_thread, ih]

/-! ## Claim C6 -/

/-- C6: for every MIDI controller value in 0..=127, midi_to_hue value equals
floor(value * 360 / 127), the result is at most 360, and in particular
midi_to_hue maps 0 to 0, 64 to 181 and 127 to 360. -/
theorem midi_to_hue_maps_cc_to_hue (v : Nat) (hv : v ≤ 127) :
    midi_to_hue v = v * 360 / 127 ∧ midi_to_hue v ≤ 360 ∧
    midi_to_hue 0 = 0 ∧ midi_to_hue 64 = 181 ∧ midi_to_hue 127 = 360 := by
  unfold midi_to_hue
  have hlt : v * 360 < 65536 := by omega
  rw [Nat.mod_eq_of_lt hlt]
  exact ⟨rfl, by omega, by decide, by decide, by decide⟩

/-- Witness for C6 at the concrete input 64. -/
theorem midi_to_hue_maps_cc_to_hue_witness :
    midi_to_hue 64 = 64 * 360 / 127 ∧ midi_to_hue 64 ≤ 360 ∧
    midi_to_hue 0 = 0 ∧ midi_to_hue 64 = 181 ∧ midi_to_hue 127 = 360 :=
  midi_to_hue_maps_cc_to_hue 64 (by decide)

/-! ## Claim C10 -/

/-- C10: for every MIDI value at most 127 the u16 product inside midi_to_hue
is at most 45720, below 65536, so the modelled u16 wrap is the identity and
midi_to_hue computes the unwrapped quotient; for u8 inputs above 182 the
product exceeds u16::MAX = 65535. -/
theorem midi_to_hue_u16_product_in_range (v w : Nat)
    (hv : v ≤ 127) (hw1 : 182 < w) (hw2 : w ≤ 255) :
    v * 360 ≤ 45720 ∧ v * 360 % 65536 = v * 360 ∧
    midi_to_hue v = v * 360 / 127 ∧ 65535 < w * 360 := by
  have hle : v * 360 ≤ 45720 := by omega
  have hmod : v * 360 % 65536 = v * 360 := Nat.mod_eq_of_lt (by omega)
  exact ⟨hle, hmod, by unfold midi_to_hue; rw [hmod], by omega⟩

/-- Witness for C10 at the concrete inputs 127 and 183. -/
theorem midi_to_hue_u16_product_in_range_witness :
    127 * 360 ≤ 45720 ∧ 127 * 360 % 65536 = 127 * 360 ∧
    midi_to_hue 127 = 127 * 360 / 127 ∧ 65535 < 183 * 360 :=
  midi_to_hue_u16_product_in_range 127 183 (by decide) (by decide) (by decide)

/-! ## Claim C7 -/

/-- C7: for every hue in 0..=360, decoding the 4-hex-digit zero-padded
encoding produced by the codec yields the hue back. -/
theorem decode_format_hex4_roundtrip (h : Nat) (hh : h ≤ 360) :
    decodeHex (format_hex4 h) = h :=
  decodeHex_format_hex4 h (by omega)

/-- Witness for C7 at the concrete hue 360. -/
theorem decode_format_hex4_roundtrip_witness :
    decodeHex (format_hex4 360) = 360 :=
  decode_format_hex4_roundtrip 360 (by decide)

/-! ## Claim C5 -/

/-- C5 counterexample: at the in-range input (120, 1000, 1000, immediate)
the encoded color string has 21 characters, not the 20 the claim states
(1 flag digit + 3 times 4 hex digits + 8 zero digits = 21). -/
theorem encode_color_length_is_not_20 :
    (encode_color 120 1000 1000 true).length = 21 ∧
    (encode_color 120 1000 1000 true).length ≠ 20 := by
  constructor <;> decide

/-- C5 amended: for every in-range input the encoded color string is exactly
21 characters: the first character is 0 when immediate is true and 1 when
immediate is false, followed by hue, saturation and brightness each
zero-padded to 4 hex digits, followed by 8 literal zero characters. -/
theorem encode_color_format (h s v : Nat) (imm : Bool)
    (hh : h ≤ 360) (hs : s ≤ 1000) (hv : v ≤ 1000) :
    (encode_color h s v imm).length = 21 ∧
    (encode_color h s v imm).data =
      (if imm then '0' else '1') ::
        ((format_hex4 h).data ++ (format_hex4 s).data ++ (format_hex4 v).data
          ++ List.replicate 8 '0') ∧
    (format_hex4 h).length = 4 ∧ (format_hex4 s).length = 4 ∧
    (format_hex4 v).length = 4 := by
  refine ⟨?_, ?_, rfl, rfl, rfl⟩ <;>
    cases imm <;>
      simp [encode_color, hsv_to_hex, format_hex4, String.length, String.append,
        List.replicate]

/-- Witness for C5 amended at the concrete input (120, 1000, 1000, true). -/
theorem encode_color_format_witness :
    (encode_color 120 1000 1000 true).length = 21 ∧
    (encode_color 120 1000 1000 true).data =
      (if true then '0' else '1') ::
        ((format_hex4 120).data ++ (format_hex4 1000).data ++ (format_hex4 1000).data
          ++ List.replicate 8 '0') ∧
    (format_hex4 120).length = 4 ∧ (format_hex4 1000).length = 4 ∧
    (format_hex4 1000).length = 4 :=
  encode_color_format 120 1000 1000 true (by decide) (by decide) (by decide)

/-! ## Claim C8 -/

/-- C8 counterexample: at the out-of-range hue 361 the codec does not reject
and does not fail fast: set_color still builds its dps map, whose key 28
carries a well-formed 21-character payload encoding 361 as 0169. -/
theorem encode_color_361_produces_payload :
    set_color_dps 361 1000 1000 true =
      [("20", DpVal.b true), ("28", DpVal.s "0016903e803e800000000")] ∧
    (encode_color 361 1000 1000 true).length = 21 := by
  constructor <;> decide

/-- C8 amended: the codec performs no range validation at all: for every
input whose hue fits in four hex digits (in particular every out-of-range
hue up to 4095, such as 361) set_color builds the payload unconditionally,
and the encoded hue field holds the input unclamped and unwrapped (decoding
it yields exactly the input back). -/
theorem encode_color_never_rejects (h s v : Nat) (imm : Bool) (hh : h < 4096) :
    set_color_dps h s v imm =
      [("20", DpVal.b true), ("28", DpVal.s (encode_color h s v imm))] ∧
    decodeHex (format_hex4 h) = h :=
  ⟨rfl, decodeHex_format_hex4 h hh⟩

/-- Witness for C8 amended at the concrete out-of-range hue 361. -/
theorem encode_color_never_rejects_witness :
    set_color_dps 361 1000 1000 true =
      [("20", DpVal.b true), ("28", DpVal.s (encode_color 361 1000 1000 true))] ∧
    decodeHex (format_hex4 361) = 361 :=
  encode_color_never_rejects 361 1000 1000 true (by decide)

/-! ## Claim C1 -/

/-- C1: every send_commands call makes at most two transport write attempts
(exactly one retry, never more); when the first write fails and the reconnect
succeeds, the session has reconnected and the second attempt writes a freshly
built payload sampled at the later clock t2 - carrying a new timestamp
whenever the clock advanced; and when the first write fails but the second
succeeds, send_commands returns success. -/
theorem send_commands_retries_exactly_once (devId : String) (dps : List (String × DpVal))
    (t1 t2 : Nat) (set1 connectOk set2 : Bool) (ht : t1 ≠ t2) :
    (send_commands devId dps t1 t2 set1 connectOk set2).writes.length ≤ 2 ∧
    (set1 = false → connectOk = true →
      (send_commands devId dps t1 t2 set1 connectOk set2).reconnected = true ∧
      (send_commands devId dps t1 t2 set1 connectOk set2).writes =
        [create_payload devId t1 dps, create_payload devId t2 dps] ∧
      (create_payload devId t2 dps).t ≠ (create_payload devId t1 dps).t) ∧
    (set1 = false → connectOk = true → set2 = true →
      (send_commands devId dps t1 t2 set1 connectOk set2).result = SendResult.ok) := by
  cases set1 <;> cases connectOk <;> cases set2 <;>
    simp [send_commands, create_payload] <;> omega

/-- Witness for C1 at a concrete failing-then-succeeding transport. -/
theorem send_commands_retries_exactly_once_witness :
    (send_commands "dev" [] 5 6 false true true).writes.length ≤ 2 ∧
    (false = false → true = true →
      (send_commands "dev" [] 5 6 false true true).reconnected = true ∧
      (send_commands "dev" [] 5 6 false true true).writes =
        [create_payload "dev" 5 [], create_payload "dev" 6 []] ∧
      (create_payload "dev" 6 []).t ≠ (create_payload "dev" 5 []).t) ∧
    (false = false → true = true → true = true →
      (send_commands "dev" [] 5 6 false true true).result = SendResult.ok) :=
  send_commands_retries_exactly_once "dev" [] 5 6 false true true (by decide)

/-! ## Claim C2 -/

/-- C2: evaluating the enqueue path of BulbVst::process at a full channel
(100 queued commands, the capacity chosen in BulbVst::default): the
crossbeam bounded send blocks the producer; the new command is neither
discarded nor delivered, so the call does not return immediately, contrary
to the claimed drop-newest policy (and to the real-time-safety requirement
stated in the source comment). -/
theorem process_send_blocks_on_full_queue :
    crossbeam_send 100 (List.replicate 100 (BulbCommand.SetHSV 0 0 0 true))
      (BulbCommand.SetHSV 120 1000 1000 true) = EnqueueOutcome.blocked := by
  simp [crossbeam_send]

/-! ## Claim C3 -/

/-- C3: two identical ColorCommands (equal hue, saturation, brightness)
submitted back-to-back result in exactly one queued command and hence
exactly one device-session send by the worker; the incoming triple is
compared against the last_* dedup state before any write, an identical
command is discarded without a device write, and a change of the immediate
flag alone never triggers a write (process leaves the state untouched
whenever the triple matches, whatever the flag). -/
theorem process_dedups_identical_commands (st : BulbVstState)
    (h s v : Nat) (i1 i2 : Bool) (outcomes : List Bool)
    (hq : st.queue = [])
    (hdiff : h ≠ st.last_hue ∨ s ≠ st.last_saturation ∨ v ≠ st.last_brightness) :
    (process (process st h s v i1) h s v i2).queue = [BulbCommand.SetHSV h s v i1] ∧
    (bulb_controller_thread (process (process st h s v i1) h s v i2).queue
      outcomes).length = 1 ∧
    (∀ st2 : BulbVstState, ∀ h2 s2 v2 : Nat, ∀ i : Bool,
      h2 = st2.last_hue → s2 = st2.last_saturation → v2 = st2.last_brightness →
      process st2 h2 s2 v2 i = st2) := by
  have hstep : process st h s v i1 =
      { last_hue := h, last_saturation := s, last_brightness := v,
        queue := st.queue ++ [BulbCommand.SetHSV h s v i1] } := by
    unfold process
    rw [if_pos hdiff]
  have hnoop : ∀ st2 : BulbVstState, ∀ h2 s2 v2 : Nat, ∀ i : Bool,
      h2 = st2.last_hue → s2 = st2.last_saturation → v2 = st2.last_brightness →
      process st2 h2 s2 v2 i = st2 := by
    intro st2 h2 s2 v2 i e1 e2 e3
    unfold process
    rw [if_neg]
    simp [e1, e2, e3]
  have hq1 : (process (process st h s v i1) h s v i2).queue =
      [BulbCommand.SetHSV h s v i1] := by
    rw [hnoop _ _ _ _ _ (by rw [hstep]) (by rw [hstep]) (by rw [hstep]), hstep, hq]
    rfl
  refine ⟨hq1, ?_, hnoop⟩
  rw [hq1, bulb_controller_thread_length]
  rfl

/-- Witness for C3 at the concrete pair of identical commands
(120, 1000, 1000) from the default state, the second differing only in the
immediate flag. -/
theorem process_dedups_identical_commands_witness :
    (process (process BulbVst.default_state 120 1000 1000 true) 120 1000 1000 false).queue
      = [BulbCommand.SetHSV 120 1000 1000 true] ∧
    (bulb_controller_thread
      (process (process BulbVst.default_state 120 1000 1000 true) 120 1000 1000 false).queue
      [true]).length = 1 ∧
    (∀ st2 : BulbVstState, ∀ h2 s2 v2 : Nat, ∀ i : Bool,
      h2 = st2.last_hue → s2 = st2.last_saturation → v2 = st2.last_brightness →
      process st2 h2 s2 v2 i = st2) :=
  process_dedups_identical_commands BulbVst.default_state 120 1000 1000 true false [true]
    rfl (Or.inl (by decide))

/-! ## Claim C4 -/

/-- C4 counterexample: from the default state, processing (120, 1000, 1000,
true) updates the last_* dedup state to (120, 1000, 1000) although the
worker's subsequent send of that very command fails (transport failing
throughout, so no successful send ever occurs): the state is updated with
zero successful sends, refuting updated-only-on-success. -/
theorem last_applied_updated_despite_failed_send :
    (process BulbVst.default_state 120 1000 1000 true).last_hue = 120 ∧
    (process BulbVst.default_state 120 1000 1000 true).last_saturation = 1000 ∧
    (process BulbVst.default_state 120 1000 1000 true).last_brightness = 1000 ∧
    (bulb_controller_thread (process BulbVst.default_state 120 1000 1000 true).queue
      [false]).filter (fun p => p.2) = [] ∧
    (set_color "dev" 120 1000 1000 true 0 1 false false false).result ≠ SendResult.ok := by
  refine ⟨by decide, by decide, by decide, by decide, by decide⟩

/-- C4 amended: the last_* dedup state is updated by the producer at enqueue
time, regardless of any send outcome (process takes no transport outcome at
all); the worker, for its part, logs failures, never touches the dedup
state, and moves on to the next queued command: its trace has exactly one
entry per queued command whatever the transport outcomes. -/
theorem last_applied_updated_at_enqueue (st : BulbVstState) (h s v : Nat) (imm : Bool)
    (hdiff : h ≠ st.last_hue ∨ s ≠ st.last_saturation ∨ v ≠ st.last_brightness) :
    (process st h s v imm).last_hue = h ∧
    (process st h s v imm).last_saturation = s ∧
    (process st h s v imm).last_brightness = v ∧
    (∀ cmds : List BulbCommand, ∀ outcomes : List Bool,
      (bulb_controller_thread cmds outcomes).length = cmds.length) := by
  unfold process
  rw [if_pos hdiff]
  exact ⟨rfl, rfl, rfl, fun cmds => bulb_controller_thread_length cmds⟩

/-- Witness for C4 amended at the default state and command (120,1000,1000). -/
theorem last_applied_updated_at_enqueue_witness :
    (process BulbVst.default_state 120 1000 1000 true).last_hue = 120 ∧
    (process BulbVst.default_state 120 1000 1000 true).last_saturation = 1000 ∧
    (process BulbVst.default_state 120 1000 1000 true).last_brightness = 1000 ∧
    (∀ cmds : List BulbCommand, ∀ outcomes : List Bool,
      (bulb_controller_thread cmds outcomes).length = cmds.length) :=
  last_applied_updated_at_enqueue BulbVst.default_state 120 1000 1000 true
    (Or.inl (by decide))

/-! ## Claim C9 -/

/-- C9: the last_* dedup state is initialized to the sentinel
(65535, 65535, 65535), which no ColorCommand within the data-model ranges
(hue at most 360, saturation and brightness at most 1000) can equal; hence
the first command processed after startup is never deduplicated away: it is
enqueued and the worker performs exactly one device write for it. -/
theorem first_command_always_writes (h s v : Nat) (imm : Bool) (outcomes : List Bool)
    (hh : h ≤ 360) (hs : s ≤ 1000) (hv : v ≤ 1000) :
    BulbVst.default_state.last_hue = 65535 ∧
    BulbVst.default_state.last_saturation = 65535 ∧
    BulbVst.default_state.last_brightness = 65535 ∧
    (process BulbVst.default_state h s v imm).queue = [BulbCommand.SetHSV h s v imm] ∧
    (bulb_controller_thread (process BulbVst.default_state h s v imm).queue
      outcomes).length = 1 := by
  have hdiff : h ≠ BulbVst.default_state.last_hue ∨
      s ≠ BulbVst.default_state.last_saturation ∨
      v ≠ BulbVst.default_state.last_brightness := by
    left
    show h ≠ 65535
    omega
  have hq : (process BulbVst.default_state h s v imm).queue =
      [BulbCommand.SetHSV h s v imm] := by
    unfold process
    rw [if_pos hdiff]
    rfl
  refine ⟨rfl, rfl, rfl, hq, ?_⟩
  rw [hq, bulb_controller_thread_length]
  rfl

/-- Witness for C9 at the concrete first command (120, 1000, 1000, true). -/
theorem first_command_always_writes_witness :
    BulbVst.default_state.last_hue = 65535 ∧
    BulbVst.default_state.last_saturation = 65535 ∧
    BulbVst.default_state.last_brightness = 65535 ∧
    (process BulbVst.default_state 120 1000 1000 true).queue
      = [BulbCommand.SetHSV 120 1000 1000 true] ∧
    (bulb_controller_thread (process BulbVst.default_state 120 1000 1000 true).queue
      [true]).length = 1 :=
  first_command_always_writes 120 1000 1000 true [true] (by decide) (by decide) (by decide)
